import Mathlib

/-!
# Verification of the codesenseai conversation orchestrator (src/lib/gemini.ts)

Shallow embedding of the tool-augmented conversation orchestrator:
the content truncator, the prompt builders, the tool-invocation
resolver, the two conversation drivers (`generateRepoSummary` and
`getChatResponse`) and the fallback policy, together with proofs of the
specified properties.

Model conventions:
* JavaScript strings are modelled by Lean `String`; a string's JS
  `length` is the number of characters (`String.length`).
* JS numbers holding repository counts are modelled by `Nat`.
* `process.env.GEMINI_API_KEY` is modelled by an `Option String`
  parameter; JS falsiness of a string (`undefined` or `""`) is
  `keyMissing`.
* The Gemini backend (`makeGeminiApiCall`) is modelled by an oracle
  `Nat → BackendResult` giving the outcome of the n-th backend call of
  the exchange: a thrown error with a message, a response with no
  `candidates[0].content`, or a returned content message.
* `fetchFileContent owner repo path` is modelled by a fetcher
  `String → Option String` (owner and repo are fixed for the exchange);
  `none` is the `null` return of the data source.
-/

/-- Message part of the Gemini wire format (interface `GeminiMessagePart`):
`args` of a `functionCall` is read by the orchestrator only through
`args.filePaths`, which is kept when it is present and an array
(`args?.filePaths && Array.isArray(args.filePaths)`), so the model
records just that projection. -/
structure FunctionCall where
  name : String
  /-- `some paths` iff `args.filePaths` is present and an array. -/
  filePaths : Option (List String)
deriving DecidableEq, Repr

/-- One per-path fetch outcome pushed into `fetchedFileResults`. -/
structure FetchedFileResult where
  filePath : String
  content : String
  status : String
deriving DecidableEq, Repr

/-- The `functionResponse` field: the code always builds
`response = { name, content: { results } }`. -/
structure FunctionResponsePayload where
  name : String
  results : List FetchedFileResult
deriving DecidableEq, Repr

/-- `GeminiMessagePart`: each field optional, as in the TS interface. -/
structure GeminiMessagePart where
  text : Option String := none
  functionCall : Option FunctionCall := none
  functionResponse : Option FunctionResponsePayload := none
deriving DecidableEq, Repr

/-- Message roles (`'user' | 'model' | 'tool'`). -/
inductive Role where
  | user
  | model
  | tool
deriving DecidableEq, Repr

/-- `GeminiMessage`. -/
structure GeminiMessage where
  role : Role
  parts : List GeminiMessagePart
deriving DecidableEq, Repr

/-- `GeminiResponse` returned to the caller. -/
structure GeminiResponse where
  text : String
  error : Option String := none
deriving DecidableEq, Repr

def MAX_FILES_TO_BROWSE : Nat := 3

def MAX_FILE_CONTENT_LENGTH : Nat := 25000

def MAX_CHAT_HISTORY_MESSAGES : Nat := 10

/-- The fixed truncation marker appended by `truncateContent`. -/
def TRUNCATION_MESSAGE : String := "\n... (content truncated due to length) ..."

/-- JS `content.lastIndexOf('\n', p)` restricted to a non-negative
start position `p`: the largest index `i ≤ p` with `l[i] = '\n'`,
or `-1` when there is none.  Checks positions `p, p-1, …, 0`. -/
def jsLastIndexOfNlAux (l : List Char) : Nat → Int
  | 0 => if l.get? 0 = some '\n' then 0 else -1
  | p + 1 => if l.get? (p + 1) = some '\n' then ((p + 1 : Nat) : Int) else jsLastIndexOfNlAux l p

/-- JS `content.lastIndexOf('\n', fromIndex)`: a negative `fromIndex`
is clamped to 0 (`Int.toNat` clamps), positions past the end find
nothing extra because indexing is by `get?`. -/
def jsLastIndexOfNl (l : List Char) (fromIndex : Int) : Int :=
  jsLastIndexOfNlAux l fromIndex.toNat

/-- `truncateContent` (src/lib/gemini.ts lines 53–61).  JS
`cutPoint < maxLength / 2` is float division; for the integer
`cutPoint` it is equivalent to `2 * cutPoint < maxLength`. -/
def truncateContent (content : String) (maxLength : Int) : String :=
  if (content.length : Int) ≤ maxLength then content
  else
    let cutPoint0 : Int := jsLastIndexOfNl content.data (maxLength - (TRUNCATION_MESSAGE.length : Int))
    let cutPoint : Int :=
      if cutPoint0 = -1 ∨ 2 * cutPoint0 < maxLength then
        maxLength - (TRUNCATION_MESSAGE.length : Int)
      else cutPoint0
    String.mk (content.data.take (max 0 cutPoint).toNat) ++ TRUNCATION_MESSAGE

/-- Owner record inside `Repository` (lib/github.ts). -/
structure RepoOwner where
  login : String
  avatar_url : String
  html_url : String
deriving DecidableEq, Repr

/-- License record inside `Repository` (lib/github.ts). -/
structure RepoLicense where
  name : String
deriving DecidableEq, Repr

/-- `Repository` (lib/github.ts).  GitHub counts are naturals. -/
structure Repository where
  name : String
  full_name : String
  owner : RepoOwner
  html_url : String
  description : String
  stargazers_count : Nat
  forks_count : Nat
  language : String
  updated_at : String
  topics : List String
  default_branch : String
  license : Option RepoLicense := none
  open_issues_count : Nat
deriving DecidableEq, Repr

/-- `RepositoryContent` (lib/github.ts); `type` is one of
"file" | "dir" | "symlink" | "submodule", modelled as a string. -/
structure RepositoryContent where
  name : String
  path : String
  type : String
  size : Nat
  html_url : String
  download_url : Option String := none
deriving DecidableEq, Repr

/-- `Contributor` (lib/github.ts). -/
structure Contributor where
  login : String
  avatar_url : String
  html_url : String
  contributions : Nat
deriving DecidableEq, Repr

/-- `Language` (lib/github.ts). -/
structure GithubLanguage where
  name : String
  percentage : Nat
  color : String
deriving DecidableEq, Repr

/-- JS `s || d` for strings: the empty string is falsy. -/
def jsOrString (s d : String) : String :=
  if s = "" then d else s

/-- Entry of `repoInfoForPrompt.availableFiles` /
`repoContext.availableFiles`: the projection
`{ path: item.path, type: item.type, size: item.size }`. -/
structure AvailableFile where
  path : String
  type : String
  size : Nat
deriving DecidableEq, Repr

/-- `repoInfoForPrompt` built by `generateRepoSummary`
(src/lib/gemini.ts lines 107–120). -/
structure RepoInfoForPrompt where
  name : String
  description : String
  primaryLanguage : String
  stars : Nat
  forks : Nat
  openIssues : Nat
  topics : List String
  availableFiles : List AvailableFile
  detectedLanguages : List String
  contributorsCount : Nat
deriving DecidableEq, Repr

/-- Lines 107–120: `.map(...).slice(0, 50)` is `map` then `take 50`,
`repoLanguages.slice(0, 5).map(l => l.name)` is `take 5` then `map`. -/
def mkRepoInfoForPrompt (repoData : Repository) (repoDirContents : List RepositoryContent)
    (repoLanguages : List GithubLanguage) (repoContributors : List Contributor) : RepoInfoForPrompt :=
  { name := repoData.full_name
    description := repoData.description
    primaryLanguage := repoData.language
    stars := repoData.stargazers_count
    forks := repoData.forks_count
    openIssues := repoData.open_issues_count
    topics := repoData.topics
    availableFiles :=
      (repoDirContents.map (fun item => { path := item.path, type := item.type, size := item.size })).take 50
    detectedLanguages := (repoLanguages.take 5).map (fun l => l.name)
    contributorsCount := repoContributors.length }

/-- A deterministic serialization of `repoInfoForPrompt`, standing in
for `JSON.stringify(repoInfoForPrompt, null, 2)` in the initial summary
prompt (line 125).  No claim depends on the exact text of this
serialization, only on the prompt being a deterministic function of the
metadata projection; the JSON pretty-printer is modelled by `reprStr`
of the projection. -/
def serializeRepoInfo (info : RepoInfoForPrompt) : String :=
  reprStr info

/-- The initial summary prompt (src/lib/gemini.ts lines 122–136). -/
def initialPromptText (info : RepoInfoForPrompt) : String :=
  "\n    You are CodeSense, an AI assistant specialized in analyzing GitHub repositories.\n    Analyze this GitHub repository information:\n    "
  ++ serializeRepoInfo info
  ++ "\n    \n    Your task is to provide a comprehensive summary. If needed, use the \x27get_file_content\x27 function to inspect up to "
  ++ toString MAX_FILES_TO_BROWSE
  ++ " key files to deepen your analysis.\n    \n    Your final analysis should be in Markdown format and include:\n    1. Overall purpose and main functionality.\n    2. Key architectural patterns and code organization.\n    3. Main technologies used and their roles.\n    4. Important features and components (highlighting those from browsed files if any).\n    5. Potential use cases.\n    Keep it factual, detailed, and developer-focused.\n  "

/-- `repoContext` built by `getChatResponse` (lines 228–234). -/
structure RepoContext where
  name : String
  description : String
  primaryLanguage : String
  availableFiles : List AvailableFile
  detectedLanguages : List String
deriving DecidableEq, Repr

/-- Lines 228–234. -/
def mkRepoContext (repoData : Repository) (repoDirContents : List RepositoryContent)
    (repoLanguages : List GithubLanguage) : RepoContext :=
  { name := repoData.full_name
    description := repoData.description
    primaryLanguage := repoData.language
    availableFiles :=
      (repoDirContents.map (fun item => { path := item.path, type := item.type, size := item.size })).take 30
    detectedLanguages := (repoLanguages.take 5).map (fun l => l.name) }

/-- The chat system instruction (lines 236–247).  Template
interpolations `${… || "N/A"}` use JS string falsiness (`jsOrString`). -/
def systemInstruction (repoData : Repository) (repoDirContents : List RepositoryContent)
    (repoLanguages : List GithubLanguage) : String :=
  let repoContext := mkRepoContext repoData repoDirContents repoLanguages
  "\n    You are CodeSense, an AI assistant helping a developer with the GitHub repository: "
  ++ repoContext.name
  ++ ".\n    Repository Context (abbreviated):\n    Name: "
  ++ repoContext.name
  ++ "\n    Description: "
  ++ jsOrString repoContext.description ("N/A")
  ++ "\n    Primary Language: "
  ++ jsOrString repoContext.primaryLanguage ("N/A")
  ++ "\n    Key Files (first few): "
  ++ jsOrString (String.intercalate (", ") ((repoContext.availableFiles.take 5).map (fun f => f.path))) ("N/A")
  ++ "\n    \n    The user will ask questions. Review the CHAT HISTORY and the current QUESTION.\n    If necessary to answer, use the \x27get_file_content\x27 function to inspect up to "
  ++ toString MAX_FILES_TO_BROWSE
  ++ " files.\n    Be concise and helpful.\n  "

/-- The canned model acknowledgment (line 252). -/
def chatAckText : String :=
  "Understood. I\x27m ready to help with this repository. What\x27s your question?"

/-- JS `arr.slice(-k)` for `k > 0`: the last `k` elements (all of them
when the array is shorter). -/
def jsSliceLast (k : Nat) (l : List GeminiMessage) : List GeminiMessage :=
  l.drop (l.length - k)

/-- The initial chat conversation (lines 250–255): system instruction
as first user message, canned model acknowledgment, the last
`MAX_CHAT_HISTORY_MESSAGES * 2` messages of the client history
(`slice(-MAX_CHAT_HISTORY_MESSAGES * 2)`), then the question wrapped in
a final user message. -/
def buildChatConversation (repoData : Repository) (repoDirContents : List RepositoryContent)
    (repoLanguages : List GithubLanguage) (userQuestion : String)
    (clientChatHistory : List GeminiMessage) : List GeminiMessage :=
  [ { role := Role.user,
      parts := [{ text := some (systemInstruction repoData repoDirContents repoLanguages) }] },
    { role := Role.model, parts := [{ text := some chatAckText }] } ]
  ++ jsSliceLast (MAX_CHAT_HISTORY_MESSAGES * 2) clientChatHistory
  ++ [ { role := Role.user, parts := [{ text := some ("QUESTION: " ++ userQuestion) }] } ]

/-- Outcome of one `makeGeminiApiCall`:
* `thrown msg` — the call threw (network failure or non-ok status;
  `makeGeminiApiCall` raises `Error` with a message);
* `noContent` — the call returned but `apiResponseData.candidates?.[0]?.content`
  is missing;
* `content m` — the call returned content `m`
  (`parts` missing is modelled by an empty parts list, which behaves
  identically in every use site). -/
inductive BackendResult where
  | thrown (msg : String)
  | noContent
  | content (m : GeminiMessage)
deriving DecidableEq, Repr

/-- JS falsiness of the api key: `!apiKey` holds for `undefined` and
for the empty string. -/
def keyMissing : Option String → Bool
  | none => true
  | some s => s = ""

/-- The per-path fetch of the tool round (body of the
`for (const filePath of filesToFetch)` loop, lines 161–168 = 277–284):
build one `fetchedFileResults` entry. -/
def fetchOneFile (fetcher : String → Option String) (filePath : String) : FetchedFileResult :=
  match fetcher filePath with
  | some content =>
      { filePath := filePath
        content := truncateContent content (MAX_FILE_CONTENT_LENGTH : Int)
        status := "Success" }
  | none =>
      { filePath := filePath
        content := "// File not found or error fetching: " ++ filePath
        status := "Error/Not Found" }

/-- Processing of one element of `functionCallParts` (loop body,
lines 156–176 = 272–292): the tool-response parts pushed for it and the
paths the fetcher is invoked on, in order.  A call is acted on only
when its name is `get_file_content` and its args carry a `filePaths`
array; the paths are clamped to the first `MAX_FILES_TO_BROWSE`. -/
def resolvePart (fetcher : String → Option String) (part : GeminiMessagePart) :
    List GeminiMessagePart × List String :=
  match part.functionCall with
  | some fc =>
      if fc.name = "get_file_content" then
        match fc.filePaths with
        | some filePaths =>
            let filesToFetch := filePaths.take MAX_FILES_TO_BROWSE
            ([ { functionResponse :=
                   some { name := "get_file_content"
                          results := filesToFetch.map (fetchOneFile fetcher) } } ],
             filesToFetch)
        | none => ([], [])
      else ([], [])
  | none => ([], [])

/-- The full `for (const part of functionCallParts)` loop
(lines 156–176 of `generateRepoSummary`; the loop at lines 272–292 of
`getChatResponse` is textually identical): first component is the
`toolResponses` array, second the list of paths fetched, in order. -/
def processFunctionCallParts (fetcher : String → Option String) :
    List GeminiMessagePart → List GeminiMessagePart × List String
  | [] => ([], [])
  | part :: rest =>
      let head := resolvePart fetcher part
      let tail := processFunctionCallParts fetcher rest
      (head.1 ++ tail.1, head.2 ++ tail.2)

/-- A part satisfies the guard of the resolver loop
(`name === 'get_file_content' && args?.filePaths && Array.isArray(args.filePaths)`). -/
def isRecognizedCall (p : GeminiMessagePart) : Bool :=
  match p.functionCall with
  | some fc => fc.name == "get_file_content" && fc.filePaths.isSome
  | none => false

/-- `currentAiContent.parts?.map(p => p.text).join("")`: JS `join`
turns `undefined` entries into the empty string. -/
def textOfContent (m : GeminiMessage) : String :=
  String.join (m.parts.map (fun p => p.text.getD ""))

/-- The terminal step of `getChatResponse` (lines 305–309): trimmed
concatenation of the text parts, empty-response failure otherwise. -/
def chatAnswerOf (m : GeminiMessage) : GeminiResponse :=
  let responseText := (textOfContent m).trim
  if responseText = "" then
    { text := "Sorry, I received an empty response from the AI."
      error := some ("AI response was empty.") }
  else { text := responseText }

/-- `provideFallbackSummary` (lines 200–213).  The template literal is
reproduced with its JS truthiness defaults (`0` for `stars`/`forks` is
rendered as "0" since `0 || 0` is `0`; `openIssues` `0` renders as
"N/A"; empty `topics` join to the empty string, hence "N/A"). -/
def provideFallbackSummary (repoInfo : RepoInfoForPrompt) (reason : Option String) : GeminiResponse :=
  let reasonLine : String :=
    match reason with
    | some r => if r = "" then "" else "*Fallback triggered: " ++ r ++ "*\n"
    | none => ""
  let summaryText : String :=
    "\n# Repository Analysis: " ++ jsOrString repoInfo.name ("N/A") ++ "\n"
    ++ reasonLine
    ++ "\n## Overview\n"
    ++ jsOrString repoInfo.description ("No description available.")
    ++ "\nThis is a " ++ jsOrString repoInfo.primaryLanguage ("multi-language") ++ " project.\n"
    ++ "Stars: " ++ toString repoInfo.stars ++ ", Forks: " ++ toString repoInfo.forks
    ++ ", Open Issues: "
    ++ (if repoInfo.openIssues = 0 then "N/A" else toString repoInfo.openIssues)
    ++ "\nTopics: " ++ jsOrString (String.intercalate (", ") repoInfo.topics) ("N/A")
    ++ "\n## Fallback Note\nThis is a basic summary based on metadata. For a more detailed AI analysis, please try again.\n  "
  { text := summaryText.trim
    error := some ("Used fallback summary" ++
      (match reason with
       | some r => if r = "" then "" else ": " ++ r
       | none => "")) }

/-- The terminal step of `generateRepoSummary` (lines 188–192):
joined text parts, trimmed; empty summaries fall back. -/
def summaryAnswerOf (repoInfo : RepoInfoForPrompt) (m : GeminiMessage) : GeminiResponse :=
  let summaryText := textOfContent m
  if summaryText.trim = "" then
    provideFallbackSummary repoInfo (some ("AI summary was empty."))
  else { text := summaryText.trim }

/-- Observable outcome of one driver run: the returned `GeminiResponse`,
how many backend calls were made, which paths the fetcher was invoked
on (in order), and the final state of `conversationHistory`. -/
structure RunTrace where
  response : GeminiResponse
  backendCalls : Nat
  fetchedPaths : List String
  conversation : List GeminiMessage
deriving DecidableEq, Repr

/-- `getChatResponse` (src/lib/gemini.ts lines 217–315), with the
backend modelled by `oracle` (result of the n-th `makeGeminiApiCall`)
and `fetchFileContent repoData.owner.login repoData.name` by `fetcher`.
A thrown backend error is caught by the surrounding `try`/`catch`
(lines 311–314). -/
def getChatResponseRun (apiKey : Option String) (repoData : Repository)
    (repoDirContents : List RepositoryContent) (repoLanguages : List GithubLanguage)
    (userQuestion : String) (clientChatHistory : List GeminiMessage)
    (oracle : Nat → BackendResult) (fetcher : String → Option String) : RunTrace :=
  if keyMissing apiKey then
    { response := { text := "Gemini API key not configured.", error := some ("API key missing") }
      backendCalls := 0, fetchedPaths := [], conversation := [] }
  else
    let conversationHistory :=
      buildChatConversation repoData repoDirContents repoLanguages userQuestion clientChatHistory
    match oracle 0 with
    | BackendResult.thrown msg =>
        { response := { text := "Sorry, an error occurred: " ++ msg, error := some msg }
          backendCalls := 1, fetchedPaths := [], conversation := conversationHistory }
    | BackendResult.noContent =>
        { response := { text := "Sorry, I couldn\x27t get an initial response from the AI for your chat message."
                        error := some ("No valid initial AI chat response.") }
          backendCalls := 1, fetchedPaths := [], conversation := conversationHistory }
    | BackendResult.content content1 =>
        let hist1 := conversationHistory ++ [content1]
        let functionCallParts := content1.parts.filter (fun p => p.functionCall.isSome)
        if functionCallParts.length > 0 then
          let resolved := processFunctionCallParts fetcher functionCallParts
          if resolved.1.length > 0 then
            let hist2 := hist1 ++ [{ role := Role.tool, parts := resolved.1 }]
            match oracle 1 with
            | BackendResult.thrown msg =>
                { response := { text := "Sorry, an error occurred: " ++ msg, error := some msg }
                  backendCalls := 2, fetchedPaths := resolved.2, conversation := hist2 }
            | BackendResult.noContent =>
                { response := { text := "Sorry, I couldn\x27t get a final response from the AI after fetching files."
                                error := some ("No valid final AI chat response.") }
                  backendCalls := 2, fetchedPaths := resolved.2, conversation := hist2 }
            | BackendResult.content content2 =>
                { response := chatAnswerOf content2
                  backendCalls := 2, fetchedPaths := resolved.2, conversation := hist2 }
          else
            { response := chatAnswerOf content1
              backendCalls := 1, fetchedPaths := resolved.2, conversation := hist1 }
        else
          { response := chatAnswerOf content1
            backendCalls := 1, fetchedPaths := [], conversation := hist1 }

/-- `generateRepoSummary` (src/lib/gemini.ts lines 98–198), with the
backend and fetcher modelled as in `getChatResponseRun`.  Thrown
backend errors are caught at lines 194–197 and produce the metadata
fallback with reason `Error generating summary: <message>`. -/
def generateRepoSummaryRun (apiKey : Option String) (repoData : Repository)
    (repoDirContents : List RepositoryContent) (repoLanguages : List GithubLanguage)
    (repoContributors : List Contributor)
    (oracle : Nat → BackendResult) (fetcher : String → Option String) : RunTrace :=
  if keyMissing apiKey then
    { response := { text := "Gemini API key not configured.", error := some ("API key missing") }
      backendCalls := 0, fetchedPaths := [], conversation := [] }
  else
    let repoInfoForPrompt := mkRepoInfoForPrompt repoData repoDirContents repoLanguages repoContributors
    let conversationHistory : List GeminiMessage :=
      [ { role := Role.user, parts := [{ text := some (initialPromptText repoInfoForPrompt) }] } ]
    match oracle 0 with
    | BackendResult.thrown msg =>
        { response := provideFallbackSummary repoInfoForPrompt
            (some ("Error generating summary: " ++ msg))
          backendCalls := 1, fetchedPaths := [], conversation := conversationHistory }
    | BackendResult.noContent =>
        { response := provideFallbackSummary repoInfoForPrompt
            (some ("No valid initial response from AI for summary."))
          backendCalls := 1, fetchedPaths := [], conversation := conversationHistory }
    | BackendResult.content content1 =>
        let hist1 := conversationHistory ++ [content1]
        let functionCallParts := content1.parts.filter (fun p => p.functionCall.isSome)
        if functionCallParts.length > 0 then
          let resolved := processFunctionCallParts fetcher functionCallParts
          if resolved.1.length > 0 then
            let hist2 := hist1 ++ [{ role := Role.tool, parts := resolved.1 }]
            match oracle 1 with
            | BackendResult.thrown msg =>
                { response := provideFallbackSummary repoInfoForPrompt
                    (some ("Error generating summary: " ++ msg))
                  backendCalls := 2, fetchedPaths := resolved.2, conversation := hist2 }
            | BackendResult.noContent =>
                { response := provideFallbackSummary repoInfoForPrompt
                    (some ("No valid final response from AI after file fetch for summary."))
                  backendCalls := 2, fetchedPaths := resolved.2, conversation := hist2 }
            | BackendResult.content content2 =>
                { response := summaryAnswerOf repoInfoForPrompt content2
                  backendCalls := 2, fetchedPaths := resolved.2, conversation := hist2 }
          else
            { response := summaryAnswerOf repoInfoForPrompt content1
              backendCalls := 1, fetchedPaths := resolved.2, conversation := hist1 }
        else
          { response := summaryAnswerOf repoInfoForPrompt content1
            backendCalls := 1, fetchedPaths := [], conversation := hist1 }

/-! ### Concrete sample inputs (used by the witnesses) -/

def sampleOwner : RepoOwner :=
  { login := "acme", avatar_url := "", html_url := "" }

def sampleRepo : Repository :=
  { name := "widget", full_name := "acme/widget", owner := sampleOwner, html_url := ""
    description := "A widget", stargazers_count := 10, forks_count := 0
    language := "TypeScript", updated_at := "", topics := [], default_branch := "main"
    open_issues_count := 0 }

def sampleFetcher : String → Option String := fun _ => none

/-- A model part carrying one recognized `get_file_content` call. -/
def sampleToolCallPart (paths : List String) : GeminiMessagePart :=
  { functionCall := some { name := "get_file_content", filePaths := some paths } }

/-- First backend response: a recognized tool call. -/
def sampleToolContent : GeminiMessage :=
  { role := Role.model, parts := [sampleToolCallPart (["README.md"])] }

/-- Second backend response that again carries a tool call next to text. -/
def sampleSecondToolContent : GeminiMessage :=
  { role := Role.model
    parts := [sampleToolCallPart (["a.ts"]), { text := some ("done") }] }

/-- Oracle whose first call asks for a tool round and whose second call
still contains a tool call. -/
def sampleOracleToolTool : Nat → BackendResult := fun n =>
  if n = 0 then BackendResult.content sampleToolContent
  else BackendResult.content sampleSecondToolContent

/-- Oracle that throws on every call. -/
def sampleOracleThrow : Nat → BackendResult := fun _ => BackendResult.thrown ("boom")

/-- Oracle that asks for a tool round and then throws. -/
def sampleOracleToolThrow : Nat → BackendResult := fun n =>
  if n = 0 then BackendResult.content sampleToolContent
  else BackendResult.thrown ("late boom")

/-- A second, different oracle failing with the same message as
`sampleOracleThrow` on the first call. -/
def sampleOracleThrowB : Nat → BackendResult := fun n =>
  if n = 0 then BackendResult.thrown ("boom") else BackendResult.noContent

def sampleFetcherB : String → Option String := fun p => some ("contents of " ++ p)

/-- First backend response whose only tool call is unrecognized. -/
def sampleUnrecognizedContent : GeminiMessage :=
  { role := Role.model
    parts := [ { functionCall := some { name := "other_tool", filePaths := some (["x"]) }
                 text := some ("plain answer") } ] }

def sampleOracleUnrecognized : Nat → BackendResult := fun n =>
  if n = 0 then BackendResult.content sampleUnrecognizedContent
  else BackendResult.thrown ("should never be called")

/-! ### Theorems -/

/-- `(String.mk l).length` is `l.length`. -/
theorem string_mk_length (l : List Char) : (String.mk l).length = l.length := rfl

theorem truncation_message_length : TRUNCATION_MESSAGE.length = 42 := rfl

/-- The backward newline search returns `-1` or an index between `0`
and the start position. -/
theorem jsLastIndexOfNlAux_range (l : List Char) (p : Nat) :
    jsLastIndexOfNlAux l p = -1 ∨
      (0 ≤ jsLastIndexOfNlAux l p ∧ jsLastIndexOfNlAux l p ≤ (p : Int)) := by
  induction p with
  | zero =>
      unfold jsLastIndexOfNlAux
      split
      · right; exact ⟨le_refl 0, by norm_num⟩
      · left; rfl
  | succ p ih =>
      unfold jsLastIndexOfNlAux
      split
      · right
        constructor
        · positivity
        · norm_num
      · rcases ih with h | ⟨h1, h2⟩
        · left; exact h
        · right
          refine ⟨h1, le_trans h2 ?_⟩
          push_cast
          omega

/-- Helper: the length bound of `truncateContent` for any maximum at
least as long as the truncation marker. -/
theorem truncate_length_bound (s : String) (M : Int)
    (h : (TRUNCATION_MESSAGE.length : Int) ≤ M) :
    ((truncateContent s M).length : Int) ≤ M := by
  have hm : (TRUNCATION_MESSAGE.length : Int) = 42 := by
    rw [truncation_message_length]; norm_num
  rw [hm] at h
  unfold truncateContent
  by_cases hle : (s.length : Int) ≤ M
  · simp only [hle, if_true]
  · simp only [hle, if_false, hm]
    have hrange := jsLastIndexOfNlAux_range s.data (M - 42).toNat
    have htonat : ((M - 42).toNat : Int) = M - 42 := Int.toNat_of_nonneg (by omega)
    set c0 := jsLastIndexOfNl s.data (M - 42) with hc0
    have hrange' : c0 = -1 ∨ (0 ≤ c0 ∧ c0 ≤ M - 42) := by
      rw [hc0]
      unfold jsLastIndexOfNl
      rcases hrange with h' | ⟨h1, h2⟩
      · left; exact h'
      · right; exact ⟨h1, by rw [htonat] at h2; exact h2⟩
    by_cases hcase : c0 = -1 ∨ 2 * c0 < M
    · simp only [hcase, if_true]
      have hmax : max 0 (M - 42) = M - 42 := by omega
      rw [hmax]
      have : ((String.mk (s.data.take (M - 42).toNat) ++ TRUNCATION_MESSAGE).length : Int)
          = ((s.data.take (M - 42).toNat).length : Int) + 42 := by
        rw [String.length_append, string_mk_length, truncation_message_length]
        push_cast
        ring
      rw [this, List.length_take]
      have hslen : (s.length : Int) = (s.data.length : Int) := rfl
      omega
    · simp only [hcase, if_false]
      push_neg at hcase
      obtain ⟨hne, hge⟩ := hcase
      rcases hrange' with h' | ⟨h1, h2⟩
      · exact absurd h' hne
      · have hmax : max 0 c0 = c0 := by omega
        rw [hmax]
        have : ((String.mk (s.data.take c0.toNat) ++ TRUNCATION_MESSAGE).length : Int)
            = ((s.data.take c0.toNat).length : Int) + 42 := by
          rw [String.length_append, string_mk_length, truncation_message_length]
          push_cast
          ring
        rw [this, List.length_take]
        have hc0nat : (c0.toNat : Int) = c0 := Int.toNat_of_nonneg h1
        have hslen : (s.length : Int) = (s.data.length : Int) := rfl
        omega

/-- Helper: a string already within the bound is returned unchanged. -/
theorem truncate_of_length_le (t : String) (M : Int) (h : (t.length : Int) ≤ M) :
    truncateContent t M = t := by
  unfold truncateContent
  simp [h]

/-- Claim C2, as stated, is false: with `maxLength = 0` (an integer
below the marker length) the result still carries the 42-character
truncation marker, so its length exceeds the bound. -/
theorem claim_C2_cex : ¬ (((truncateContent ("ab") 0).length : Int) ≤ 0) := by
  decide

/-- Claim C2 (amended): for every string `s` and every integer
`maxLength` at least the truncation marker's length (42), the length of
`truncateContent s maxLength` is at most `maxLength`. -/
theorem claim_C2_truncate_length_le (s : String) (M : Int)
    (h : (TRUNCATION_MESSAGE.length : Int) ≤ M) :
    ((truncateContent s M).length : Int) ≤ M :=
  truncate_length_bound s M h

theorem claim_C2_witness :
    (TRUNCATION_MESSAGE.length : Int) ≤ 50 ∧
      ((truncateContent ("line one\nline two\nline three\nline four\nline five\nline six") 50).length : Int) ≤ 50 :=
  ⟨by decide,
   claim_C2_truncate_length_le ("line one\nline two\nline three\nline four\nline five\nline six") 50 (by decide)⟩

/-- Claim C5: truncation is idempotent for every `maxLength` strictly
greater than the truncation marker's length: the first application
lands within the bound, so the second returns its input unchanged. -/
theorem claim_C5_truncate_idempotent (s : String) (M : Int)
    (h : (TRUNCATION_MESSAGE.length : Int) < M) :
    truncateContent (truncateContent s M) M = truncateContent s M :=
  truncate_of_length_le _ M (truncate_length_bound s M (le_of_lt h))

theorem claim_C5_witness :
    (TRUNCATION_MESSAGE.length : Int) < 50 ∧
      truncateContent (truncateContent ("line one\nline two\nline three\nline four\nline five\nline six") 50) 50
        = truncateContent ("line one\nline two\nline three\nline four\nline five\nline six") 50 :=
  ⟨by decide,
   claim_C5_truncate_idempotent ("line one\nline two\nline three\nline four\nline five\nline six") 50 (by decide)⟩


/-- Claim C3: a recognized tool call whose `filePaths` has length
greater than `MAX_FILES_TO_BROWSE` causes exactly
`MAX_FILES_TO_BROWSE` fetches, one for each of the first
`MAX_FILES_TO_BROWSE` paths in order, and none beyond them: the list
of fetched paths is precisely `paths.take MAX_FILES_TO_BROWSE`. -/
theorem claim_C3_clamp (fetcher : String → Option String) (paths : List String)
    (txt : Option String) (fr : Option FunctionResponsePayload)
    (h : paths.length > MAX_FILES_TO_BROWSE) :
    (processFunctionCallParts fetcher
        [{ text := txt
           functionCall := some { name := "get_file_content", filePaths := some paths }
           functionResponse := fr }]).2 = paths.take MAX_FILES_TO_BROWSE ∧
      (processFunctionCallParts fetcher
        [{ text := txt
           functionCall := some { name := "get_file_content", filePaths := some paths }
           functionResponse := fr }]).2.length = MAX_FILES_TO_BROWSE := by
  constructor
  · simp [processFunctionCallParts, resolvePart]
  · simp [processFunctionCallParts, resolvePart, List.length_take]
    omega

theorem claim_C3_witness :
    (["README.md", "src/index.ts", "extra.ts", "ignored.ts"] : List String).length > MAX_FILES_TO_BROWSE ∧
      ((processFunctionCallParts sampleFetcher
          [{ text := none
             functionCall := some { name := "get_file_content"
                                    filePaths := some (["README.md", "src/index.ts", "extra.ts", "ignored.ts"]) }
             functionResponse := none }]).2
          = (["README.md", "src/index.ts", "extra.ts", "ignored.ts"] : List String).take MAX_FILES_TO_BROWSE ∧
        (processFunctionCallParts sampleFetcher
          [{ text := none
             functionCall := some { name := "get_file_content"
                                    filePaths := some (["README.md", "src/index.ts", "extra.ts", "ignored.ts"]) }
             functionResponse := none }]).2.length = MAX_FILES_TO_BROWSE) :=
  ⟨by decide,
   claim_C3_clamp sampleFetcher (["README.md", "src/index.ts", "extra.ts", "ignored.ts"]) none none (by decide)⟩

/-- Claim C4, as stated, is false on the code: two recognized
`get_file_content` tool calls in one model response produce two
`functionResponse` parts both keyed `get_file_content` in the single
tool message, not one aggregated part. -/
theorem claim_C4_cex :
    ¬ (((processFunctionCallParts sampleFetcher
          [sampleToolCallPart (["a"]), sampleToolCallPart (["b"])]).1.filter
          (fun q => q.functionResponse.map FunctionResponsePayload.name == some ("get_file_content"))).length ≤ 1) := by
  decide

/-- Claim C4 (amended): the resolver emits exactly one `tool_result`
part per recognized `tool_call` part — each keyed by the tool name
`get_file_content` — so a response with n recognized calls yields a
tool message containing n `tool_result` parts, not one. -/
theorem claim_C4_one_result_per_call (fetcher : String → Option String)
    (parts : List GeminiMessagePart) :
    (processFunctionCallParts fetcher parts).1.length = (parts.filter isRecognizedCall).length ∧
      ∀ q ∈ (processFunctionCallParts fetcher parts).1,
        ∃ results, q = { functionResponse := some { name := "get_file_content", results := results } } := by
  induction parts with
  | nil =>
      refine ⟨rfl, ?_⟩
      intro q hq
      simp [processFunctionCallParts] at hq
  | cons p rest ih =>
      obtain ⟨ih1, ih2⟩ := ih
      unfold processFunctionCallParts
      match hfc : p.functionCall with
      | none =>
          simp only [resolvePart, hfc, List.nil_append]
          refine ⟨?_, ih2⟩
          rw [ih1, List.filter_cons]
          simp [isRecognizedCall, hfc]
      | some fc =>
          by_cases hname : fc.name = "get_file_content"
          · match hfp : fc.filePaths with
            | none =>
                simp only [resolvePart, hfc, hname, if_true, hfp, List.nil_append]
                refine ⟨?_, ih2⟩
                rw [ih1, List.filter_cons]
                simp [isRecognizedCall, hfc, hname, hfp]
            | some filePaths =>
                simp only [resolvePart, hfc, hname, if_true, hfp]
                constructor
                · rw [List.filter_cons]
                  simp only [isRecognizedCall, hfc, hname, hfp]
                  simp [ih1]
                · intro q hq
                  rcases List.mem_append.mp hq with hq | hq
                  · rcases List.mem_singleton.mp hq with rfl
                    exact ⟨_, rfl⟩
                  · exact ih2 q hq
          · simp only [resolvePart, hfc, hname, if_false, List.nil_append]
            refine ⟨?_, ih2⟩
            rw [ih1, List.filter_cons]
            simp [isRecognizedCall, hfc, hname]

/-- Helper: the chat driver makes at most two backend calls. -/
theorem chat_backendCalls_le_two (apiKey : Option String) (repoData : Repository)
    (repoDirContents : List RepositoryContent) (repoLanguages : List GithubLanguage)
    (userQuestion : String) (clientChatHistory : List GeminiMessage)
    (oracle : Nat → BackendResult) (fetcher : String → Option String) :
    (getChatResponseRun apiKey repoData repoDirContents repoLanguages userQuestion
      clientChatHistory oracle fetcher).backendCalls ≤ 2 := by
  cases hk : keyMissing apiKey with
  | true => simp [getChatResponseRun, hk]
  | false =>
      rcases h0 : oracle 0 with m0 | _ | c1 <;>
        simp only [getChatResponseRun, hk, h0, Bool.false_eq_true, if_false]
      · omega
      · omega
      · by_cases hfc : (c1.parts.filter (fun p => p.functionCall.isSome)).length > 0
        · simp only [hfc, if_true]
          by_cases hres :
              (processFunctionCallParts fetcher
                (c1.parts.filter (fun p => p.functionCall.isSome))).1.length > 0
          · simp only [hres, if_true]
            rcases h1 : oracle 1 with m1 | _ | c2 <;> simp
          · simp only [hres, if_false]
            omega
        · simp only [hfc, if_false]
          omega

/-- Helper: the summary driver makes at most two backend calls. -/
theorem summary_backendCalls_le_two (apiKey : Option String) (repoData : Repository)
    (repoDirContents : List RepositoryContent) (repoLanguages : List GithubLanguage)
    (repoContributors : List Contributor)
    (oracle : Nat → BackendResult) (fetcher : String → Option String) :
    (generateRepoSummaryRun apiKey repoData repoDirContents repoLanguages repoContributors
      oracle fetcher).backendCalls ≤ 2 := by
  cases hk : keyMissing apiKey with
  | true => simp [generateRepoSummaryRun, hk]
  | false =>
      rcases h0 : oracle 0 with m0 | _ | c1 <;>
        simp only [generateRepoSummaryRun, hk, h0, Bool.false_eq_true, if_false]
      · omega
      · omega
      · by_cases hfc : (c1.parts.filter (fun p => p.functionCall.isSome)).length > 0
        · simp only [hfc, if_true]
          by_cases hres :
              (processFunctionCallParts fetcher
                (c1.parts.filter (fun p => p.functionCall.isSome))).1.length > 0
          · simp only [hres, if_true]
            rcases h1 : oracle 1 with m1 | _ | c2 <;> simp
          · simp only [hres, if_false]
            omega
        · simp only [hfc, if_false]
          omega

/-- Helper: whenever the chat driver issued a second backend call and
that call returned content `c2`, the returned response is
`chatAnswerOf c2` — computed from `c2`'s text parts only, whatever
other parts (tool calls included) `c2` carries. -/
theorem chat_second_call_response (apiKey : Option String) (repoData : Repository)
    (repoDirContents : List RepositoryContent) (repoLanguages : List GithubLanguage)
    (userQuestion : String) (clientChatHistory : List GeminiMessage)
    (oracle : Nat → BackendResult) (fetcher : String → Option String) (c2 : GeminiMessage)
    (h1 : oracle 1 = BackendResult.content c2)
    (hcalls : (getChatResponseRun apiKey repoData repoDirContents repoLanguages userQuestion
        clientChatHistory oracle fetcher).backendCalls = 2) :
    (getChatResponseRun apiKey repoData repoDirContents repoLanguages userQuestion
      clientChatHistory oracle fetcher).response = chatAnswerOf c2 := by
  cases hk : keyMissing apiKey with
  | true => simp [getChatResponseRun, hk] at hcalls
  | false =>
      rcases h0 : oracle 0 with m0 | _ | c1 <;>
          simp only [getChatResponseRun, hk, h0, Bool.false_eq_true, if_false] at hcalls ⊢
      · omega
      · omega
      · by_cases hfc : (c1.parts.filter (fun p => p.functionCall.isSome)).length > 0
        · simp only [hfc, if_true] at hcalls ⊢
          by_cases hres :
              (processFunctionCallParts fetcher
                (c1.parts.filter (fun p => p.functionCall.isSome))).1.length > 0
          · simp only [hres, if_true, h1] at hcalls ⊢
          · simp only [hres, if_false] at hcalls
            omega
        · simp only [hfc, if_false] at hcalls
          omega

/-- Helper: the summary analogue of `chat_second_call_response`. -/
theorem summary_second_call_response (apiKey : Option String) (repoData : Repository)
    (repoDirContents : List RepositoryContent) (repoLanguages : List GithubLanguage)
    (repoContributors : List Contributor)
    (oracle : Nat → BackendResult) (fetcher : String → Option String) (c2 : GeminiMessage)
    (h1 : oracle 1 = BackendResult.content c2)
    (hcalls : (generateRepoSummaryRun apiKey repoData repoDirContents repoLanguages
        repoContributors oracle fetcher).backendCalls = 2) :
    (generateRepoSummaryRun apiKey repoData repoDirContents repoLanguages repoContributors
        oracle fetcher).response =
      summaryAnswerOf (mkRepoInfoForPrompt repoData repoDirContents repoLanguages repoContributors) c2 := by
  cases hk : keyMissing apiKey with
  | true => simp [generateRepoSummaryRun, hk] at hcalls
  | false =>
      rcases h0 : oracle 0 with m0 | _ | c1 <;>
          simp only [generateRepoSummaryRun, hk, h0, Bool.false_eq_true, if_false] at hcalls ⊢
      · omega
      · omega
      · by_cases hfc : (c1.parts.filter (fun p => p.functionCall.isSome)).length > 0
        · simp only [hfc, if_true] at hcalls ⊢
          by_cases hres :
              (processFunctionCallParts fetcher
                (c1.parts.filter (fun p => p.functionCall.isSome))).1.length > 0
          · simp only [hres, if_true, h1] at hcalls ⊢
          · simp only [hres, if_false] at hcalls
            omega
        · simp only [hfc, if_false] at hcalls
          omega

/-- Helper: the chat run depends on the backend oracle only through
its first two answers — no third call can influence anything. -/
theorem chat_run_two_calls_only (apiKey : Option String) (repoData : Repository)
    (repoDirContents : List RepositoryContent) (repoLanguages : List GithubLanguage)
    (userQuestion : String) (clientChatHistory : List GeminiMessage)
    (oracle oracle' : Nat → BackendResult) (fetcher : String → Option String)
    (h0 : oracle' 0 = oracle 0) (h1 : oracle' 1 = oracle 1) :
    getChatResponseRun apiKey repoData repoDirContents repoLanguages userQuestion
        clientChatHistory oracle' fetcher =
      getChatResponseRun apiKey repoData repoDirContents repoLanguages userQuestion
        clientChatHistory oracle fetcher := by
  unfold getChatResponseRun
  rw [h0, h1]

/-- Helper: the summary run likewise consults only the first two
backend answers. -/
theorem summary_run_two_calls_only (apiKey : Option String) (repoData : Repository)
    (repoDirContents : List RepositoryContent) (repoLanguages : List GithubLanguage)
    (repoContributors : List Contributor)
    (oracle oracle' : Nat → BackendResult) (fetcher : String → Option String)
    (h0 : oracle' 0 = oracle 0) (h1 : oracle' 1 = oracle 1) :
    generateRepoSummaryRun apiKey repoData repoDirContents repoLanguages repoContributors
        oracle' fetcher =
      generateRepoSummaryRun apiKey repoData repoDirContents repoLanguages repoContributors
        oracle fetcher := by
  unfold generateRepoSummaryRun
  rw [h0, h1]

/-- Claim C1: every exchange (summary or chat) issues at most two
backend calls; the whole run is determined by the first two backend
answers (a third call neither happens nor could influence the result);
and whenever a second call was issued and returned content `c2` — in
particular when `c2` itself still contains `tool_call` parts — those
parts are ignored and the returned answer is computed from the
concatenation of `c2`'s text parts alone (`chatAnswerOf` /
`summaryAnswerOf`, which fall over to the failure path when that
concatenation is empty). -/
theorem claim_C1_single_tool_round (apiKey : Option String) (repoData : Repository)
    (repoDirContents : List RepositoryContent) (repoLanguages : List GithubLanguage)
    (repoContributors : List Contributor) (userQuestion : String)
    (clientChatHistory : List GeminiMessage)
    (oracle : Nat → BackendResult) (fetcher : String → Option String) (c2 : GeminiMessage) :
    (getChatResponseRun apiKey repoData repoDirContents repoLanguages userQuestion
        clientChatHistory oracle fetcher).backendCalls ≤ 2 ∧
    (generateRepoSummaryRun apiKey repoData repoDirContents repoLanguages repoContributors
        oracle fetcher).backendCalls ≤ 2 ∧
    (oracle 1 = BackendResult.content c2 →
      ((getChatResponseRun apiKey repoData repoDirContents repoLanguages userQuestion
          clientChatHistory oracle fetcher).backendCalls = 2 →
        (getChatResponseRun apiKey repoData repoDirContents repoLanguages userQuestion
          clientChatHistory oracle fetcher).response = chatAnswerOf c2) ∧
      ((generateRepoSummaryRun apiKey repoData repoDirContents repoLanguages repoContributors
          oracle fetcher).backendCalls = 2 →
        (generateRepoSummaryRun apiKey repoData repoDirContents repoLanguages repoContributors
          oracle fetcher).response =
          summaryAnswerOf (mkRepoInfoForPrompt repoData repoDirContents repoLanguages repoContributors) c2)) ∧
    (∀ oracle' : Nat → BackendResult, oracle' 0 = oracle 0 → oracle' 1 = oracle 1 →
      getChatResponseRun apiKey repoData repoDirContents repoLanguages userQuestion
          clientChatHistory oracle' fetcher =
        getChatResponseRun apiKey repoData repoDirContents repoLanguages userQuestion
          clientChatHistory oracle fetcher ∧
      generateRepoSummaryRun apiKey repoData repoDirContents repoLanguages repoContributors
          oracle' fetcher =
        generateRepoSummaryRun apiKey repoData repoDirContents repoLanguages repoContributors
          oracle fetcher) := by
  refine ⟨chat_backendCalls_le_two _ _ _ _ _ _ _ _,
    summary_backendCalls_le_two _ _ _ _ _ _ _, ?_, ?_⟩
  · intro h1
    exact ⟨fun hcalls => chat_second_call_response _ _ _ _ _ _ _ _ _ h1 hcalls,
      fun hcalls => summary_second_call_response _ _ _ _ _ _ _ _ h1 hcalls⟩
  · intro oracle' h0 h1
    exact ⟨chat_run_two_calls_only _ _ _ _ _ _ _ _ _ h0 h1,
      summary_run_two_calls_only _ _ _ _ _ _ _ _ h0 h1⟩

theorem claim_C1_witness :
    (getChatResponseRun (some ("k")) sampleRepo [] [] ("q") [] sampleOracleToolTool sampleFetcher).backendCalls ≤ 2 ∧
    (generateRepoSummaryRun (some ("k")) sampleRepo [] [] [] sampleOracleToolTool sampleFetcher).backendCalls ≤ 2 ∧
    (getChatResponseRun (some ("k")) sampleRepo [] [] ("q") [] sampleOracleToolTool sampleFetcher).response
      = chatAnswerOf sampleSecondToolContent ∧
    (generateRepoSummaryRun (some ("k")) sampleRepo [] [] [] sampleOracleToolTool sampleFetcher).response
      = summaryAnswerOf (mkRepoInfoForPrompt sampleRepo [] [] []) sampleSecondToolContent ∧
    getChatResponseRun (some ("k")) sampleRepo [] [] ("q") [] sampleOracleToolTool sampleFetcher
      = getChatResponseRun (some ("k")) sampleRepo [] [] ("q") [] sampleOracleToolTool sampleFetcher ∧
    generateRepoSummaryRun (some ("k")) sampleRepo [] [] [] sampleOracleToolTool sampleFetcher
      = generateRepoSummaryRun (some ("k")) sampleRepo [] [] [] sampleOracleToolTool sampleFetcher := by
  obtain ⟨h1, h2, h3, h6⟩ :=
    claim_C1_single_tool_round (some ("k")) sampleRepo [] [] [] ("q") [] sampleOracleToolTool
      sampleFetcher sampleSecondToolContent
  obtain ⟨h4, h5⟩ := h3 rfl
  obtain ⟨h7, h8⟩ := h6 sampleOracleToolTool rfl rfl
  exact ⟨h1, h2, h4 (by rfl), h5 (by rfl), h7, h8⟩

/-- Claim C6: whenever the chat backend call fails — the first call
throws, or a second call was issued and throws — `getChatResponse`
returns (never raises) a Response whose text is exactly
`"Sorry, an error occurred: "` followed by the failure message and
whose error field is that message; no metadata fallback document is
produced on the chat path. -/
theorem claim_C6_chat_error_apology (apiKey : Option String) (repoData : Repository)
    (repoDirContents : List RepositoryContent) (repoLanguages : List GithubLanguage)
    (userQuestion : String) (clientChatHistory : List GeminiMessage)
    (oracle : Nat → BackendResult) (fetcher : String → Option String) (m : String)
    (hkey : keyMissing apiKey = false)
    (hfail : oracle 0 = BackendResult.thrown m ∨
      ((getChatResponseRun apiKey repoData repoDirContents repoLanguages userQuestion
          clientChatHistory oracle fetcher).backendCalls = 2 ∧
        oracle 1 = BackendResult.thrown m)) :
    (getChatResponseRun apiKey repoData repoDirContents repoLanguages userQuestion
        clientChatHistory oracle fetcher).response =
      { text := "Sorry, an error occurred: " ++ m, error := some m } := by
  rcases hfail with h0 | ⟨hcalls, h1⟩
  · simp [getChatResponseRun, hkey, h0]
  · rcases h0 : oracle 0 with m0 | _ | c1 <;>
        simp only [getChatResponseRun, hkey, h0, Bool.false_eq_true, if_false] at hcalls ⊢
    · omega
    · omega
    · by_cases hfc : (c1.parts.filter (fun p => p.functionCall.isSome)).length > 0
      · simp only [hfc, if_true] at hcalls ⊢
        by_cases hres :
            (processFunctionCallParts fetcher
              (c1.parts.filter (fun p => p.functionCall.isSome))).1.length > 0
        · simp only [hres, if_true, h1] at hcalls ⊢
        · simp only [hres, if_false] at hcalls
          omega
      · simp only [hfc, if_false] at hcalls
        omega

theorem claim_C6_witness :
    keyMissing (some ("k")) = false ∧
      (getChatResponseRun (some ("k")) sampleRepo [] [] ("q") [] sampleOracleThrow sampleFetcher).response
        = { text := "Sorry, an error occurred: " ++ "boom", error := some ("boom") } :=
  ⟨rfl,
   claim_C6_chat_error_apology (some ("k")) sampleRepo [] [] ("q") [] sampleOracleThrow
     sampleFetcher ("boom") rfl (Or.inl rfl)⟩

/-- Claim C7: with the backend credential absent, both drivers return
the fixed notice immediately — zero backend calls, zero fetches, a
matching non-empty error field. -/
theorem claim_C7_key_missing (apiKey : Option String) (repoData : Repository)
    (repoDirContents : List RepositoryContent) (repoLanguages : List GithubLanguage)
    (repoContributors : List Contributor) (userQuestion : String)
    (clientChatHistory : List GeminiMessage)
    (oracle : Nat → BackendResult) (fetcher : String → Option String)
    (h : apiKey = none) :
    generateRepoSummaryRun apiKey repoData repoDirContents repoLanguages repoContributors
        oracle fetcher =
      { response := { text := "Gemini API key not configured.", error := some ("API key missing") }
        backendCalls := 0, fetchedPaths := [], conversation := [] } ∧
    getChatResponseRun apiKey repoData repoDirContents repoLanguages userQuestion
        clientChatHistory oracle fetcher =
      { response := { text := "Gemini API key not configured.", error := some ("API key missing") }
        backendCalls := 0, fetchedPaths := [], conversation := [] } := by
  subst h
  exact ⟨rfl, rfl⟩

theorem claim_C7_witness :
    (none : Option String) = none ∧
      generateRepoSummaryRun none sampleRepo [] [] [] sampleOracleThrow sampleFetcher =
        { response := { text := "Gemini API key not configured.", error := some ("API key missing") }
          backendCalls := 0, fetchedPaths := [], conversation := [] } ∧
      getChatResponseRun none sampleRepo [] [] ("q") [] sampleOracleThrow sampleFetcher =
        { response := { text := "Gemini API key not configured.", error := some ("API key missing") }
          backendCalls := 0, fetchedPaths := [], conversation := [] } :=
  ⟨rfl,
   claim_C7_key_missing none sampleRepo [] [] [] ("q") [] sampleOracleThrow sampleFetcher rfl⟩

/-- Claim C8: two summary runs over identical metadata whose first
backend call fails with an identical message produce byte-identical
fallback text, whatever else (oracle beyond call 0, fetcher, api key
value) differs between the runs. -/
theorem claim_C8_fallback_deterministic (apiKey apiKey' : Option String)
    (repoData : Repository) (repoDirContents : List RepositoryContent)
    (repoLanguages : List GithubLanguage) (repoContributors : List Contributor)
    (oracle oracle' : Nat → BackendResult) (fetcher fetcher' : String → Option String)
    (m : String)
    (hk : keyMissing apiKey = false) (hk' : keyMissing apiKey' = false)
    (h0 : oracle 0 = BackendResult.thrown m) (h0' : oracle' 0 = BackendResult.thrown m) :
    (generateRepoSummaryRun apiKey repoData repoDirContents repoLanguages repoContributors
        oracle fetcher).response.text =
      (generateRepoSummaryRun apiKey' repoData repoDirContents repoLanguages repoContributors
        oracle' fetcher').response.text := by
  simp [generateRepoSummaryRun, hk, hk', h0, h0']

theorem claim_C8_witness :
    keyMissing (some ("k")) = false ∧ keyMissing (some ("k2")) = false ∧
      sampleOracleThrow 0 = BackendResult.thrown ("boom") ∧
      sampleOracleThrowB 0 = BackendResult.thrown ("boom") ∧
      (generateRepoSummaryRun (some ("k")) sampleRepo [] [] [] sampleOracleThrow sampleFetcher).response.text =
        (generateRepoSummaryRun (some ("k2")) sampleRepo [] [] [] sampleOracleThrowB sampleFetcherB).response.text :=
  ⟨rfl, rfl, rfl, rfl,
   claim_C8_fallback_deterministic (some ("k")) (some ("k2")) sampleRepo [] [] []
     sampleOracleThrow sampleOracleThrowB sampleFetcher sampleFetcherB ("boom") rfl rfl rfl rfl⟩

/-- Helper: an unrecognized call contributes nothing to the tool round. -/
theorem resolvePart_unrecognized (fetcher : String → Option String)
    (p : GeminiMessagePart) (h : isRecognizedCall p = false) :
    resolvePart fetcher p = ([], []) := by
  rcases hfc : p.functionCall with _ | fc
  · simp [resolvePart, hfc]
  · rcases hfp : fc.filePaths with _ | paths
    · by_cases hname : fc.name = "get_file_content" <;> simp [resolvePart, hfc, hfp, hname]
    · simp only [isRecognizedCall, hfc, hfp, Option.isSome_some, Bool.and_true,
        beq_eq_false_iff_ne, ne_eq] at h
      simp [resolvePart, hfc, h]

/-- Helper: a batch of unrecognized calls yields an empty `toolResponses`
array and no fetches. -/
theorem processFunctionCallParts_unrecognized (fetcher : String → Option String)
    (parts : List GeminiMessagePart)
    (h : ∀ p ∈ parts, isRecognizedCall p = false) :
    processFunctionCallParts fetcher parts = ([], []) := by
  induction parts with
  | nil => rfl
  | cons p rest ih =>
      unfold processFunctionCallParts
      rw [resolvePart_unrecognized fetcher p (h p (List.mem_cons_self p rest)),
        ih (fun q hq => h q (List.mem_cons_of_mem p hq))]
      rfl

/-- Claim C10: when the first model response carries tool calls but all
of them are unrecognized (wrong name, or no `filePaths` array), both
drivers append no tool message, issue no second backend call, and
complete the exchange from the text parts of that first response
(falling over to the respective failure path when that text is empty —
encoded in `chatAnswerOf` / `summaryAnswerOf`). -/
theorem claim_C10_unrecognized_calls (apiKey : Option String) (repoData : Repository)
    (repoDirContents : List RepositoryContent) (repoLanguages : List GithubLanguage)
    (repoContributors : List Contributor) (userQuestion : String)
    (clientChatHistory : List GeminiMessage)
    (oracle : Nat → BackendResult) (fetcher : String → Option String) (c1 : GeminiMessage)
    (hkey : keyMissing apiKey = false)
    (h0 : oracle 0 = BackendResult.content c1)
    (hsome : (c1.parts.filter (fun p => p.functionCall.isSome)).length > 0)
    (hunrec : ∀ p ∈ c1.parts, isRecognizedCall p = false) :
    getChatResponseRun apiKey repoData repoDirContents repoLanguages userQuestion
        clientChatHistory oracle fetcher =
      { response := chatAnswerOf c1
        backendCalls := 1
        fetchedPaths := []
        conversation :=
          buildChatConversation repoData repoDirContents repoLanguages userQuestion
            clientChatHistory ++ [c1] } ∧
    generateRepoSummaryRun apiKey repoData repoDirContents repoLanguages repoContributors
        oracle fetcher =
      { response := summaryAnswerOf
          (mkRepoInfoForPrompt repoData repoDirContents repoLanguages repoContributors) c1
        backendCalls := 1
        fetchedPaths := []
        conversation :=
          [ { role := Role.user
              parts := [{ text := some (initialPromptText
                (mkRepoInfoForPrompt repoData repoDirContents repoLanguages repoContributors)) }] },
            c1 ] } := by
  have hproc : processFunctionCallParts fetcher
      (c1.parts.filter (fun p => p.functionCall.isSome)) = ([], []) :=
    processFunctionCallParts_unrecognized fetcher _
      (fun q hq => hunrec q (List.mem_of_mem_filter hq))
  constructor
  · simp only [getChatResponseRun, hkey, Bool.false_eq_true, if_false, h0, hsome, if_true, hproc]
    simp
  · simp only [generateRepoSummaryRun, hkey, Bool.false_eq_true, if_false, h0, hsome, if_true, hproc]
    simp

theorem claim_C10_witness :
    keyMissing (some ("k")) = false ∧
      sampleOracleUnrecognized 0 = BackendResult.content sampleUnrecognizedContent ∧
      (sampleUnrecognizedContent.parts.filter (fun p => p.functionCall.isSome)).length > 0 ∧
      (∀ p ∈ sampleUnrecognizedContent.parts, isRecognizedCall p = false) ∧
      getChatResponseRun (some ("k")) sampleRepo [] [] ("q") [] sampleOracleUnrecognized sampleFetcher =
        { response := chatAnswerOf sampleUnrecognizedContent
          backendCalls := 1
          fetchedPaths := []
          conversation :=
            buildChatConversation sampleRepo [] [] ("q") [] ++ [sampleUnrecognizedContent] } ∧
      generateRepoSummaryRun (some ("k")) sampleRepo [] [] [] sampleOracleUnrecognized sampleFetcher =
        { response := summaryAnswerOf (mkRepoInfoForPrompt sampleRepo [] [] []) sampleUnrecognizedContent
          backendCalls := 1
          fetchedPaths := []
          conversation :=
            [ { role := Role.user
                parts := [{ text := some (initialPromptText (mkRepoInfoForPrompt sampleRepo [] [] [])) }] },
              sampleUnrecognizedContent ] } :=
  ⟨rfl, rfl, by decide, by decide,
   claim_C10_unrecognized_calls (some ("k")) sampleRepo [] [] [] ("q") [] sampleOracleUnrecognized
     sampleFetcher sampleUnrecognizedContent rfl rfl (by decide) (by decide)⟩

/-- Claim C9: for every metadata, question and prior history — the
empty ones included — the chat conversation built by `getChatResponse`
is exactly: the system-instruction message with the user role, the
canned acknowledgment with the model role, the last
`MAX_CHAT_HISTORY_MESSAGES * 2` messages of the prior history
unchanged (older ones dropped), and a final user message wrapping the
literal question. -/
theorem claim_C9_chat_prompt_shape (repoData : Repository)
    (repoDirContents : List RepositoryContent) (repoLanguages : List GithubLanguage)
    (userQuestion : String) (clientChatHistory : List GeminiMessage) :
    buildChatConversation repoData repoDirContents repoLanguages userQuestion clientChatHistory =
      { role := Role.user
        parts := [{ text := some (systemInstruction repoData repoDirContents repoLanguages) }] } ::
      { role := Role.model, parts := [{ text := some chatAckText }] } ::
      ((clientChatHistory.reverse.take (MAX_CHAT_HISTORY_MESSAGES * 2)).reverse ++
        [{ role := Role.user, parts := [{ text := some ("QUESTION: " ++ userQuestion) }] }]) := by
  have h1 : jsSliceLast (MAX_CHAT_HISTORY_MESSAGES * 2) clientChatHistory
      = (clientChatHistory.reverse.take (MAX_CHAT_HISTORY_MESSAGES * 2)).reverse := by
    have h2 : jsSliceLast (MAX_CHAT_HISTORY_MESSAGES * 2) clientChatHistory
        = clientChatHistory.rtake (MAX_CHAT_HISTORY_MESSAGES * 2) := rfl
    rw [h2, List.rtake_eq_reverse_take_reverse]
  unfold buildChatConversation
  rw [h1]
  rfl
